import Mathlib

/-!
# Verification of the OLX scraper's duplicate-detection and persistence engine

Shallow embedding of the engine found in `scraper_dev_backup.py`,
`scraper_supabase.py` and `supabase_sync.py`:

* a JSON-like value type `JVal` models the Python dict/list/str/number values
  that the persisted `price_history.json` document is made of;
* `DatabaseValidator.validate_database` / `_validate_price_entry` are embedded
  over `JVal`;
* `OLXScrapingEngine.save_duplicate_database`, `filter_duplicates`,
  `SafeDatabaseOperations.safe_download` / `atomic_upload`,
  `DatabaseBackupManager.get_latest_valid_backup`,
  `FileLockManager.acquire_database_lock`,
  `SupabaseSync.download_database` / `save_cars_data` are embedded as pure
  functions, with the file system and network abstracted into explicit
  environment records (a flag or result per I/O interaction the code performs).

Machine floats are modelled as rationals (`ℚ`); all prices appearing in the
engine's comparisons are small decimals that binary floats represent exactly,
so the comparisons agree.
-/

set_option maxRecDepth 4000

namespace OlxScraper


/-- JSON-like values: the payloads of the persisted price-history document.
Python dicts are insertion-ordered association lists, as `json.load` produces
string keys only. -/
inductive JVal where
  | null
  | bool (b : Bool)
  | num (q : ℚ)
  | str (s : String)
  | arr (xs : List JVal)
  | obj (fs : List (String × JVal))
deriving Repr

namespace JVal

/-- Python `d.get(k)` / `d[k]` on a dict: first binding of the key, if any. -/
def lookup : JVal → String → Option JVal
  | .obj fs, k => fs.lookup k
  | _, _ => none

/-- Python `isinstance(v, dict)`. -/
def isObj : JVal → Bool
  | .obj _ => true
  | _ => false

end JVal

/-- Python `s.startswith(pat)`, computed on the character lists so that it
evaluates by kernel reduction. -/
def strStartsWith (s pat : String) : Bool := pat.data.isPrefixOf s.data

/-- Python `abs` on floats (here: on the rationals modelling them). -/
def qabs (q : ℚ) : ℚ := if q < 0 then -q else q

/-- Python `dict.update` with a single key: replace the binding in place if
the key exists, else append it at the end (insertion order).  Python dict
keys are unique, so replacing the first occurrence is the same as replacing
every occurrence. -/
def objSet (fs : List (String × JVal)) (k : String) (v : JVal) :
    List (String × JVal) :=
  match fs with
  | [] => [(k, v)]
  | (k1, v1) :: rest =>
    if k1 == k then (k, v) :: rest else (k1, v1) :: objSet rest k v

/-- Embedding of `DatabaseValidator._validate_price_entry` (scraper_dev_backup.py:1314-1340).
An entry is valid iff it is a dict carrying the fields `timestamp`, `price`
and `url`, with a string timestamp, a non-negative numeric price (Python
`isinstance(x, (int, float))` also accepts booleans, which compare `>= 0`),
and a string url starting with `"http"`. -/
def validate_price_entry (entry : JVal) : Bool :=
  match entry with
  | .obj _ =>
    match entry.lookup "timestamp", entry.lookup "price", entry.lookup "url" with
    | some ts, some price, some url =>
      (match ts with | .str _ => true | _ => false) &&
      (match price with
       | .num q => decide (0 ≤ q)
       | .bool _ => true
       | _ => false) &&
      (match url with | .str s => strStartsWith s "http" | _ => false)
    | _, _, _ => false
  | _ => false

/-- The entry-sanitising loop of `validate_database`
(scraper_dev_backup.py:1260-1279).  Walks the history dict in insertion
order and returns `(corrected_history, total_entries, corrupted_entries)`:
a non-list car history counts as one corrupted entry and is skipped; in a
list, invalid entries are dropped and counted, and a car whose corrected
list is empty is omitted from the corrected history. -/
def sanitize_history : List (String × JVal) → List (String × JVal) × Nat × Nat
  | [] => ([], 0, 0)
  | (carId, carHist) :: rest =>
    let r := sanitize_history rest
    match carHist with
    | .arr entries =>
      let kept := entries.filter validate_price_entry
      let bad := (entries.filter (fun e => !validate_price_entry e)).length
      let h := if kept.isEmpty then r.1 else (carId, .arr kept) :: r.1
      (h, kept.length + r.2.1, bad + r.2.2)
    | _ => (r.1, r.2.1, 1 + r.2.2)

/-- Embedding of `DatabaseValidator.validate_database` (scraper_dev_backup.py:1231-1312),
returning `(is_valid, error_message, corrected_data)`.  `now` stands for
`datetime.now().isoformat()`.

Control flow of the source: non-dict input hard-fails; a missing `history` /
`metadata` key is replaced by an empty dict; a non-dict `history` value
hard-fails; the history is sanitised by `sanitize_history`; finally
`corrected_db['metadata'].update({...})` raises `AttributeError` when the
`metadata` value is not a dict, which the enclosing `except` turns into the
hard failure `(False, "Database validation failed: ...", None)`. -/
def validate_database (now : String) (db : JVal) :
    Bool × String × Option JVal :=
  match db with
  | .obj _ =>
    let history := (db.lookup "history").getD (.obj [])
    match history with
    | .obj hist =>
      let s := sanitize_history hist
      let correctedHistory := s.1
      let totalEntries := s.2.1
      let corrupted := s.2.2
      let metadata := (db.lookup "metadata").getD (.obj [])
      match metadata with
      | .obj mfs =>
        let stats : JVal := .obj
          [("total_cars", .num correctedHistory.length),
           ("total_entries", .num totalEntries),
           ("corrupted_entries_removed", .num corrupted)]
        let newMeta := objSet (objSet mfs "last_validated" (.str now))
          "validation_stats" stats
        let correctedDb : JVal := .obj
          [("history", .obj correctedHistory), ("metadata", .obj newMeta)]
        let isValid := corrupted == 0
        let errorMsg :=
          if corrupted > 0 then s!"Removed {corrupted} corrupted entries"
          else "Database is valid"
        (isValid, errorMsg, some correctedDb)
      | _ =>
        -- `metadata.update(...)` raises AttributeError, caught at line 1309
        (false, "Database validation failed: metadata is not a dictionary",
         none)
    | _ => (false, "History field is not a dictionary", none)
  | _ => (false, "Database content is not a dictionary", none)

/-- The `history` dict of a persisted document (empty when absent/non-dict). -/
def historyOf (db : JVal) : List (String × JVal) :=
  match db.lookup "history" with
  | some (.obj h) => h
  | _ => []

/-- The `validation_stats` object written by the validator into the corrected
copy's metadata, projected from a `validate_database` result. -/
def validationStats (r : Bool × String × Option JVal) : Option JVal :=
  match r.2.2 with
  | some db =>
    match db.lookup "metadata" with
    | some m => m.lookup "validation_stats"
    | none => none
  | none => none

/-- The `corrupted_entries_removed` counter of a validation result. -/
def statCorrupted (r : Bool × String × Option JVal) : Option JVal :=
  match validationStats r with
  | some s => s.lookup "corrupted_entries_removed"
  | none => none

/-- The `total_entries` counter of a validation result. -/
def statTotalEntries (r : Bool × String × Option JVal) : Option JVal :=
  match validationStats r with
  | some s => s.lookup "total_entries"
  | none => none

/-- The fields of `CarData` that the duplicate-detection engine reads
(scraper_dev_backup.py:1760-1775).  `price_numeric` is `none` when the record
carries no usable price (`car.price_numeric is None` in the source's guard). -/
structure Car where
  unique_id : String
  title : String
  price_text : String
  price_numeric : Option ℚ
  link : String
  scrape_date : String
deriving DecidableEq, Repr

/-- A `duplicate_db` record: the derived latest-state cache kept per car id.
Every record the engine constructs (scraper_dev_backup.py:2280-2291,
supabase_sync.py:172-180, scraper_supabase.py:104-111) carries all five
fields, in particular `last_price`. -/
structure DupRec where
  title : String
  link : String
  last_price : ℚ
  last_seen : String
  first_seen : String
deriving DecidableEq, Repr

/-- The in-memory duplicate database: `unique_id → DupRec`, insertion
ordered. -/
abbrev DupDb := List (String × DupRec)

/-- Constant `PRICE_CHANGE_THRESHOLD` (scraper_dev_backup.py:187). -/
def PRICE_CHANGE_THRESHOLD : ℚ := 1

/-- Classification outcome of one scraped record. -/
inductive CarClass where
  | new
  | changed
  | unchanged
deriving DecidableEq, Repr

/-- The per-car branch of `OLXScrapingEngine.filter_duplicates`
(scraper_dev_backup.py:2347-2400): an id absent from `duplicate_db` is new;
a present id with a price is changed iff the absolute difference to the
record's `last_price` reaches `PRICE_CHANGE_THRESHOLD`, else unchanged
("duplicate"); a present id without a price is unchanged ("no price data to
compare"). -/
def classify_car (db : DupDb) (car : Car) : CarClass :=
  match db.lookup car.unique_id with
  | none => .new
  | some rec =>
    match car.price_numeric with
    | some p =>
      if PRICE_CHANGE_THRESHOLD ≤ qabs (p - rec.last_price) then .changed
      else .unchanged
    | none => .unchanged

/-- Embedding of `OLXScrapingEngine.filter_duplicates` (scraper_dev_backup.py:2324-2414):
keeps, in order, exactly the cars classified new or changed. -/
def filter_duplicates (db : DupDb) (cars : List Car) : List Car :=
  match cars with
  | [] => []
  | car :: rest =>
    match classify_car db car with
    | .unchanged => filter_duplicates db rest
    | _ => car :: filter_duplicates db rest

/-- The history entry `save_duplicate_database` builds for a scraped car
(scraper_dev_backup.py:2212-2219). -/
def saveEntry (car : Car) (p : ℚ) : JVal :=
  .obj [("date", .str car.scrape_date), ("price", .num p),
        ("price_text", .str car.price_text), ("title", .str car.title),
        ("link", .str car.link), ("source", .str "scraper")]

/-- Append a saved entry to an existing car history
(`existing_history[car_id].append(new_entry)`); a non-list value would make
`.append` raise, modelled as `none`. -/
def appendEntry (v : JVal) (e : JVal) : Option JVal :=
  match v with
  | .arr es => some (.arr (es ++ [e]))
  | _ => none

/-- The merge loop of `save_duplicate_database`
(scraper_dev_backup.py:2210-2228).  Returns the merged history together with
the `(new_entries, updated_entries)` counters; `none` models an uncaught
exception (`float(None)` on a missing price, or appending to a non-list
history). -/
def mergeCars (hist : List (String × JVal)) :
    List Car → Option (List (String × JVal) × Nat × Nat)
  | [] => some (hist, 0, 0)
  | car :: rest =>
    match car.price_numeric with
    | none => none
    | some p =>
      let entry := saveEntry car p
      if hist.any (fun q => q.1 == car.unique_id) then
        match
          hist.foldr
            (fun kv acc =>
              match acc with
              | none => none
              | some l =>
                if kv.1 == car.unique_id then
                  match appendEntry kv.2 entry with
                  | some v => some ((kv.1, v) :: l)
                  | none => none
                else some (kv :: l))
            (some []) with
        | none => none
        | some hist1 =>
          match mergeCars hist1 rest with
          | some (h, n, u) => some (h, n, u + 1)
          | none => none
      else
        match mergeCars (hist ++ [(car.unique_id, .arr [entry])]) rest with
        | some (h, n, u) => some (h, n + 1, u)
        | none => none

/-- Total observation count of a history dict (`sum(len(hist) for ...)`),
counting a non-list car history as zero entries. -/
def totalObservations (hist : List (String × JVal)) : Nat :=
  match hist with
  | [] => 0
  | (_, .arr es) :: rest => es.length + totalObservations rest
  | _ :: rest => totalObservations rest

/-- Embedding of `OLXScrapingEngine.save_duplicate_database`
(scraper_dev_backup.py:2186-2291), acting on the history dict loaded from the
persisted file.  The merged history is packed with fresh metadata, passed
through `DatabaseValidator.validate_database`, and the corrected copy (always
produced for this well-formed input shape) is what gets written to
`price_history.json`.  Returns the persisted document; `none` models an
uncaught exception in the merge loop. -/
def save_duplicate_database (existingHistory : List (String × JVal))
    (newCars : List Car) (now : String) : Option JVal :=
  match mergeCars existingHistory newCars with
  | none => none
  | some (merged, newE, updE) =>
    let updatedData : JVal := .obj
      [("history", .obj merged),
       ("metadata", .obj
         [("last_update", .str now),
          ("total_cars", .num merged.length),
          ("total_entries", .num (totalObservations merged)),
          ("last_merge_stats", .obj
            [("original_size", .num existingHistory.length),
             ("new_entries", .num newE),
             ("updated_entries", .num updE),
             ("final_size", .num merged.length)])])]
    let v := validate_database now updatedData
    match v.2.2 with
    | some corrected => some corrected
    | none => some updatedData

/-- Number of observations in a history dict that pass the validator's entry
check (entries inside non-list car histories are not counted). -/
def countValidObs : List (String × JVal) → Nat
  | [] => 0
  | (_, .arr es) :: rest => (es.filter validate_price_entry).length +
      countValidObs rest
  | _ :: rest => countValidObs rest

/-- Number of observations in a history dict that fail the validator's entry
check (entries inside non-list car histories are not counted). -/
def countInvalidObs : List (String × JVal) → Nat
  | [] => 0
  | (_, .arr es) :: rest =>
      (es.filter (fun e => !validate_price_entry e)).length +
      countInvalidObs rest
  | _ :: rest => countInvalidObs rest

/-- Modelled from the spec: the corrected history "keeps exactly the
well-formed observations and drops only the invalid ones" — every car history
is filtered down to its valid entries and cars left with no entries are
removed.  Used to compare `validate_database`'s corrected output against the
spec's description. -/
def specCorrectedHistory (hist : List (String × JVal)) :
    List (String × JVal) :=
  (hist.map (fun p =>
      (p.1, match p.2 with
            | .arr es => JVal.arr (es.filter validate_price_entry)
            | v => v))).filter
    (fun p => match p.2 with
              | .arr es => !es.isEmpty
              | _ => true)

/-- A history entry in the exact shape `save_duplicate_database` persists
(the `date`/`price_text`/`link` schema of the persisted document). -/
def demoSavedEntry : JVal :=
  .obj [("date", .str "2024-01-01T10:00:00"), ("price", .num 100),
        ("price_text", .str "100"), ("title", .str "demo car"),
        ("link", .str "https://www.olx.ro/d/oferta/demo"),
        ("source", .str "scraper")]

/-- A persisted history holding one car with one observation, exactly as the
engine itself writes it. -/
def demoHistory : List (String × JVal) := [("B", .arr [demoSavedEntry])]

/-- A scraped car with every field populated. -/
def demoCar : Car :=
  { unique_id := "A1", title := "car a", price_text := "5 000",
    price_numeric := some 5000,
    link := "https://www.olx.ro/d/oferta/a", scrape_date := "2024-02-02" }

/-- An observation that is well-formed for the persisted-document schema of
the spec (`date`, `price`, `price_text`, `title`, `link`, `source`, with an
ISO timestamp, a non-negative numeric price and an https link). -/
def claimObs (day : String) (price : ℚ) : JVal :=
  .obj [("date", .str ("2024-01-0" ++ day ++ "T00:00:00")),
        ("price", .num price), ("price_text", .str "x"),
        ("title", .str ("car " ++ day)),
        ("link", .str "https://www.olx.ro/d/oferta/1"),
        ("source", .str "scraper")]

/-- A malformed observation: the `price` field is missing. -/
def claimObsNoPrice : JVal :=
  .obj [("date", .str "2024-01-09T00:00:00"), ("price_text", .str "?"),
        ("title", .str "bad"),
        ("link", .str "https://www.olx.ro/d/oferta/9"),
        ("source", .str "scraper")]

/-- A database whose history holds 5 observations well-formed per the
persisted-document schema and 2 malformed ones (missing price). -/
def dbFiveTwo : JVal :=
  .obj [("history", .obj
          [("car1", .arr [claimObs "1" 100, claimObs "2" 200,
                          claimObs "3" 300, claimObsNoPrice]),
           ("car2", .arr [claimObs "4" 400, claimObs "5" 500,
                          claimObsNoPrice])]),
        ("metadata", .obj [])]

/-- A database record with `last_price = 10000`. -/
def recTenK : DupRec :=
  { title := "b", link := "https://www.olx.ro/d/oferta/b",
    last_price := 10000, last_seen := "2024-01-01",
    first_seen := "2024-01-01" }

/-- A rescan of id `B` at a given price. -/
def rescanB (p : Option ℚ) : Car :=
  { unique_id := "B", title := "b", price_text := "p", price_numeric := p,
    link := "https://www.olx.ro/d/oferta/b", scrape_date := "2024-02-02" }

/-- The GitHub-backend headless pipeline (`run_headless_scraper`,
scraper_dev_backup.py:3828-3841): reports the filtered cars (`cars_data`)
and passes the full scraped batch (`all_scraped_cars`) to
`save_duplicate_database`.  Returns `(reported, passed_to_save)`. -/
def run_headless_pipeline (db : DupDb) (scraped : List Car) :
    List Car × List Car :=
  (filter_duplicates db scraped, scraped)

/-- The Supabase pipeline (`run_scraper_with_supabase`,
scraper_supabase.py:185-189): filters first and passes only the filtered
cars (`filtered_cars`) to `save_duplicate_database`.  Returns
`(reported, passed_to_save)`. -/
def run_supabase_pipeline (db : DupDb) (scraped : List Car) :
    List Car × List Car :=
  (filter_duplicates db scraped, filter_duplicates db scraped)

/-- An unchanged rescan of id `B` at the stored price 100. -/
def unchangedB : Car :=
  { unique_id := "B", title := "b", price_text := "100",
    price_numeric := some 100,
    link := "https://www.olx.ro/d/oferta/b", scrape_date := "2024-02-02" }

/-- The database holding id `B` at `last_price = 100`. -/
def dbB100 : DupDb :=
  [("B", { title := "b", link := "https://www.olx.ro/d/oferta/b",
           last_price := 100, last_seen := "2024-01-01",
           first_seen := "2024-01-01" })]

/-- Python `" -> ".join(source_chain)`. -/
def joinArrow : List String → String
  | [] => ""
  | [s] => s
  | s :: rest => s ++ " -> " ++ joinArrow rest

/-- Substring search on character lists (Python `pat in s`). -/
def charsContains (pat : List Char) : List Char → Bool
  | [] => pat.isEmpty
  | c :: t => pat.isPrefixOf (c :: t) || charsContains pat t

/-- Python `pat in s` on strings. -/
def strContains (s pat : String) : Bool := charsContains pat.data s.data

/-- Constant `DOWNLOAD_RETRY_ATTEMPTS` (scraper_dev_backup.py:194). -/
def DOWNLOAD_RETRY_ATTEMPTS : Nat := 3

/-- Embedding of `DatabaseBackupManager.get_latest_valid_backup`
(scraper_dev_backup.py:1102-1145) over the backup files sorted newest first:
unreadable files (`none`) are skipped, a file the validator accepts is
returned as-is, a correctable one is returned corrected, an uncorrectable
one is skipped. -/
def get_latest_valid_backup (now : String) :
    List (String × Option JVal) → Option (String × JVal)
  | [] => none
  | (_, none) :: rest => get_latest_valid_backup now rest
  | (name, some c) :: rest =>
    let v := validate_database now c
    if v.1 then some (name, c)
    else
      match v.2.2 with
      | some d => some (name, d)
      | none => get_latest_valid_backup now rest

/-- Environment of one `safe_download` run: the outcome of each remote
download attempt (`none` = download failure, unreadable file, or invalid
JSON), the backup directory newest first, the existing local working copy,
and whether the two fallible local writes of strategies 2 and 4 succeed.
The writes of strategy 1 and 3 are modelled as succeeding; they are not
exercised by the claims. -/
structure DlEnv where
  remote : Nat → Option JVal
  backups : List (String × Option JVal)
  localFile : Option JVal
  restoreOk : Bool
  emergencyOk : Bool
  now : String

/-- Result of `safe_download`: `(success, content, source_description)` plus
the final content of the local working file. -/
structure DlResult where
  ok : Bool
  content : Option JVal
  provenance : String
  localOut : Option JVal

/-- The retry loop of strategy 1 (scraper_dev_backup.py:1376-1424): attempt
`i` succeeds with the downloaded content if it validates, with the corrected
copy if it is correctable, and otherwise (or on download failure) falls
through to the next attempt. -/
def dlAttempts (env : DlEnv) : Nat → Nat → Option (JVal × String)
  | 0, _ => none
  | fuel+1, i =>
    match env.remote i with
    | some content =>
      let v := validate_database env.now content
      if v.1 then
        some (content, "GitHub download (attempt " ++ toString (i + 1) ++ ")")
      else
        match v.2.2 with
        | some c =>
          some (c, "GitHub download corrected (attempt " ++
            toString (i + 1) ++ ")")
        | none => dlAttempts env fuel (i + 1)
    | none => dlAttempts env fuel (i + 1)

/-- The emergency empty database of strategy 4
(scraper_dev_backup.py:1471-1478). -/
def emergencyDb (now : String) (chain : List String) : JVal :=
  .obj [("history", .obj []),
        ("metadata", .obj
          [("created", .str now),
           ("created_reason", .str "emergency_fallback"),
           ("recovery_chain", .arr (chain.map JVal.str))])]

/-- Strategy 4 (scraper_dev_backup.py:1469-1491): write an emergency empty
database; on write failure the whole download fails. -/
def dlStrategy4 (env : DlEnv) (chain : List String) : DlResult :=
  if env.emergencyOk then
    { ok := true, content := some (emergencyDb env.now chain),
      provenance := joinArrow (chain ++ ["Emergency empty database"]),
      localOut := some (emergencyDb env.now chain) }
  else
    { ok := false, content := none,
      provenance := joinArrow (chain ++ ["Emergency creation failed"]),
      localOut := env.localFile }

/-- Strategy 3 (scraper_dev_backup.py:1447-1467): validate the existing
local working copy; any corrected copy (also a fully valid one) is
persisted and returned; otherwise fall through to strategy 4. -/
def dlStrategy3 (env : DlEnv) (chain : List String) : DlResult :=
  match env.localFile with
  | some content =>
    match (validate_database env.now content).2.2 with
    | some c =>
      { ok := true, content := some c,
        provenance := joinArrow (chain ++ ["Existing local file (corrected)"]),
        localOut := some c }
    | none => dlStrategy4 env chain
  | none => dlStrategy4 env chain

/-- Embedding of `SafeDatabaseOperations.safe_download` (scraper_dev_backup.py:1358-1491):
strategy 1 retries the remote download `DOWNLOAD_RETRY_ATTEMPTS` times;
strategy 2 restores the latest valid backup ("Local backup (<name>)");
strategy 3 corrects the existing local file; strategy 4 synthesizes an
emergency empty database. -/
def safe_download (env : DlEnv) : DlResult :=
  match dlAttempts env DOWNLOAD_RETRY_ATTEMPTS 0 with
  | some (content, stage) =>
    { ok := true, content := some content, provenance := joinArrow [stage],
      localOut := some content }
  | none =>
    let chain := ["GitHub download failed"]
    match get_latest_valid_backup env.now env.backups with
    | some (name, content) =>
      if env.restoreOk then
        { ok := true, content := some content,
          provenance :=
            joinArrow (chain ++ ["Local backup (" ++ name ++ ")"]),
          localOut := some content }
      else dlStrategy3 env (chain ++ ["Local backup failed"])
    | none => dlStrategy3 env (chain ++ ["Local backup failed"])

/-- Constant `UPLOAD_RETRY_ATTEMPTS` (scraper_dev_backup.py:193). -/
def UPLOAD_RETRY_ATTEMPTS : Nat := 5

/-- Environment of one `atomic_upload` run: whether the pre-upload backup
creation succeeds, whether the temp-write/re-read/rename block raises, and
the outcome of each remote upload attempt. -/
structure UpEnv where
  backupOk : Bool
  writeOk : Bool
  upload : Nat → Bool

/-- The retry loop of `atomic_upload` (scraper_dev_backup.py:1549-1575),
returning the overall outcome and the number of remote upload attempts
made. -/
def uploadAttempts (env : UpEnv) : Nat → Nat → Bool × Nat
  | 0, made => (false, made)
  | fuel+1, made =>
    if env.upload made then (true, made + 1)
    else uploadAttempts env fuel (made + 1)

/-- Embedding of `SafeDatabaseOperations.atomic_upload` (scraper_dev_backup.py:1493-1575),
returning `(success, number_of_remote_upload_attempts)`: a failed pre-upload
backup aborts; an uncorrectable content aborts; a failing local
temp-write/verify block aborts; a failing written-content re-validation
aborts (removing the temp file); only then is the remote upload attempted,
at most `UPLOAD_RETRY_ATTEMPTS` times.  All failures return `false` — the
function is total and never raises. -/
def atomic_upload (env : UpEnv) (content : JVal) (now : String) :
    Bool × Nat :=
  if !env.backupOk then (false, 0)
  else
    match (validate_database now content).2.2 with
    | none => (false, 0)
    | some corrected =>
      if !env.writeOk then (false, 0)
      else if !(validate_database now corrected).1 then (false, 0)
      else uploadAttempts env UPLOAD_RETRY_ATTEMPTS 0

/-- The lock file name (scraper_dev_backup.py:1607):
`f"database_lock_{session_id or 'default'}.lock"`. -/
def lockName (sessionId : String) : String :=
  "database_lock_" ++ (if sessionId = "" then "default" else sessionId) ++
    ".lock"

/-- Embedding of `FileLockManager.acquire_database_lock`
(scraper_dev_backup.py:1596-1648) against the set of lock files currently
flock-held by other processes: the non-blocking exclusive flock on the named
lock file succeeds iff no other process holds that same file; while the file
stays held every poll fails and the call returns `none` at the timeout.
Returns the acquired lock file name. -/
def acquire_database_lock (held : List String) (sessionId : String) :
    Option String :=
  if lockName sessionId ∈ held then none else some (lockName sessionId)

/-- A row of the Supabase `cars` table as read by `download_database`.  A
`none`/zero price is Python-falsy and replaced by 999999. -/
structure SCar where
  unique_id : String
  title : String
  link : String
  price : Option ℚ
  price_text : Option String
  first_seen : Option String
  scraped_at : String

/-- A row of the Supabase `price_history` table. -/
structure SHist where
  price : Option ℚ
  price_text : Option String
  recorded_at : String

/-- Python `float(p) if p else 999999` (falsy: `None` or `0`). -/
def pyPrice : Option ℚ → ℚ
  | some q => if q = 0 then 999999 else q
  | none => 999999

/-- Python `a or b` on an optional string (falsy: `None` or `""`). -/
def pyOrStr : Option String → String → String
  | some s, b => if s = "" then b else s
  | none, b => b

/-- One history entry built by `SupabaseSync.download_database`
(supabase_sync.py:109-127). -/
def supaEntry (car : SCar) (date : String) (price : Option ℚ)
    (ptext : Option String) : JVal :=
  .obj [("date", .str date), ("price", .num (pyPrice price)),
        ("price_text", .str (ptext.getD "")), ("title", .str car.title),
        ("link", .str car.link), ("source", .str "supabase")]

/-- The price-history document `SupabaseSync.download_database` builds from
the fetched rows (supabase_sync.py:93-135). -/
def buildPriceHistory (now : String) (data : List (SCar × List SHist)) :
    JVal :=
  .obj [("history", .obj (data.map (fun pc =>
          (pc.1.unique_id, JVal.arr
            (supaEntry pc.1 (pyOrStr pc.1.first_seen pc.1.scraped_at)
               pc.1.price pc.1.price_text ::
             pc.2.map (fun h =>
               supaEntry pc.1 h.recorded_at h.price h.price_text)))))),
        ("metadata", .obj
          [("last_update", .str now), ("total_cars", .num data.length),
           ("source", .str "supabase")])]

/-- The empty fallback database written in the error branch of
`SupabaseSync.download_database` (supabase_sync.py:151). -/
def supaEmptyDb (now : String) : JVal :=
  .obj [("history", .obj []),
        ("metadata", .obj [("created_at", .str now)])]

/-- Embedding of `SupabaseSync.download_database` (supabase_sync.py:73-155): `fetched` is
the outcome of the remote queries (`none` = an exception was raised), and
`hasLocalPath` tells whether a local cache path was supplied.  Returns the
boolean result and the content written to the local path (if any). -/
def supabase_download_database (fetched : Option (List (SCar × List SHist)))
    (hasLocalPath : Bool) (now : String) : Bool × Option JVal :=
  match fetched with
  | some data =>
    (true, if hasLocalPath then some (buildPriceHistory now data) else none)
  | none =>
    (true, if hasLocalPath then some (supaEmptyDb now) else none)

/-- Constant `SupabaseSync.BATCH_SIZE` (supabase_sync.py:65). -/
def BATCH_SIZE : Nat := 100

/-- Constant `SupabaseSync.MAX_NEW_CARS_PER_RUN` (supabase_sync.py:70). -/
def MAX_NEW_CARS_PER_RUN : Nat := 1000

/-- Environment of one `save_cars_data` run: whether each numbered
`_save_batch` upsert succeeds. -/
structure SupaSaveEnv where
  batchOk : Nat → Bool

/-- The batch slicing `cars_list[i:i+BATCH_SIZE]` of the loop in
`save_cars_data` (supabase_sync.py:212-217). -/
def chunked (l : List Car) : List (List Car) :=
  if h : l = [] then []
  else l.take BATCH_SIZE :: chunked (l.drop BATCH_SIZE)
termination_by l.length
decreasing_by
  simp only [List.length_drop]
  have hp : 0 < l.length := List.length_pos.mpr h
  have hb : 0 < BATCH_SIZE := by norm_num [BATCH_SIZE]
  omega

/-- The batch loop of `save_cars_data`: each `_save_batch` upserts every car
of its batch; a failed batch aborts the loop with `False` (cars of earlier
batches stay upserted).  Returns the outcome and the upserted cars. -/
def runBatches (env : SupaSaveEnv) : List (List Car) → Nat → Bool × List Car
  | [], _ => (true, [])
  | b :: rest, idx =>
    if env.batchOk idx then
      let r := runBatches env rest (idx + 1)
      (r.1, b ++ r.2)
    else (false, [])

/-- Embedding of `SupabaseSync.save_cars_data` (supabase_sync.py:189-224): an empty batch
succeeds immediately; a batch longer than `MAX_NEW_CARS_PER_RUN` is silently
truncated to its first `MAX_NEW_CARS_PER_RUN` cars; the (possibly truncated)
list is upserted in `BATCH_SIZE`-sized slices.  Returns the outcome and the
cars passed to the upsert. -/
def save_cars_data (env : SupaSaveEnv) (cars : List Car) :
    Bool × List Car :=
  if cars = [] then (true, [])
  else
    let cars2 :=
      if MAX_NEW_CARS_PER_RUN < cars.length then
        cars.take MAX_NEW_CARS_PER_RUN
      else cars
    runBatches env (chunked cars2) 0

/-- An observation valid for the validator's entry schema. -/
def tsObs : JVal :=
  .obj [("timestamp", .str "2024-01-01T00:00:00"), ("price", .num 100),
        ("url", .str "https://www.olx.ro/d/oferta/x")]

/-- A backup document the validator accepts unchanged. -/
def backupDoc : JVal :=
  .obj [("history", .obj [("car1", .arr [tsObs])]), ("metadata", .obj [])]

/-- A download environment in which every remote attempt fails and one valid
backup exists. -/
def envBackupOnly : DlEnv :=
  { remote := fun _ => none,
    backups := [("price_history_backup_20240101_120000.json",
                 some backupDoc)],
    localFile := none, restoreOk := true, emergencyOk := true, now := "T" }

/-- An observation malformed for the validator's entry schema: the `price`
field is missing. -/
def tsObsNoPrice : JVal :=
  .obj [("timestamp", .str "2024-01-02T00:00:00"),
        ("url", .str "https://www.olx.ro/d/oferta/y")]

/-- A history with 5 observations well-formed per the validator's entry
schema and 2 malformed ones, spread over two cars. -/
def histFiveTwo : List (String × JVal) :=
  [("car1", .arr [tsObs, tsObs, tsObs, tsObsNoPrice]),
   ("car2", .arr [tsObs, tsObs, tsObsNoPrice])]

/-! ## Theorems -/

/-- On a history dict all of whose car histories are lists, the validator's
sanitising loop keeps exactly the valid observations and counts exactly the
invalid ones. -/
theorem sanitize_history_spec (hist : List (String × JVal))
    (hall : ∀ p ∈ hist, ∃ es, p.2 = JVal.arr es) :
    sanitize_history hist =
      (specCorrectedHistory hist, countValidObs hist, countInvalidObs hist) := by
  induction hist with
  | nil => rfl
  | cons p rest ih =>
    obtain ⟨es, hes⟩ := hall p (by simp)
    obtain ⟨k, v⟩ := p
    simp only at hes
    subst hes
    have ih' := ih (fun q hq => hall q (by simp [hq]))
    simp only [sanitize_history, specCorrectedHistory, countValidObs,
      countInvalidObs, List.map_cons, List.filter_cons, ih']
    by_cases hemp : (es.filter validate_price_entry).isEmpty
    · simp [hemp, List.isEmpty_iff.mp hemp, specCorrectedHistory]
    · simp [hemp, specCorrectedHistory,
        Bool.not_eq_true, eq_false_of_ne_true hemp]

/-- Key lookup in a metadata dict updated by `objSet` finds the value just
written. -/
theorem lookup_objSet (fs : List (String × JVal)) (k : String) (v : JVal) :
    List.lookup k (objSet fs k v) = some v := by
  induction fs with
  | nil => simp [objSet, List.lookup]
  | cons p fs ih =>
    obtain ⟨k1, v1⟩ := p
    by_cases h : k1 = k
    · subst h
      simp [objSet, List.lookup]
    · have hb : (k1 == k) = false := beq_eq_false_iff_ne.mpr h
      have hb' : (k == k1) = false := beq_eq_false_iff_ne.mpr (Ne.symm h)
      rw [objSet]
      simp only [hb, Bool.false_eq_true, if_false, List.lookup, hb', ih]

/-- C1: the save operation does not preserve the persisted store.  Starting
from a history with one id and one observation — in exactly the entry schema
`save_duplicate_database` itself writes — a save with no new cars persists an
empty history (1 id → 0 ids, 1 observation → 0 observations), because the
validator's entry check demands the `timestamp`/`url` fields while the engine
writes `date`/`link`; and saving one scraped car into an empty store persists
no observation for it at all.  This contradicts the claimed monotone growth
and append behaviour. -/
theorem save_duplicate_database_discards_observations :
    demoHistory.length = 1 ∧ totalObservations demoHistory = 1 ∧
    (save_duplicate_database demoHistory [] "T").map historyOf = some [] ∧
    (save_duplicate_database [] [demoCar] "T").map historyOf = some [] := by
  refine ⟨rfl, rfl, rfl, rfl⟩

/-- C2 counterexample: on a database with 5 observations well-formed per the
persisted-document schema (`date`/`price`/`price_text`/`title`/`link`/
`source`) and 2 malformed ones, `validate_database` reports
`corrupted_entries_removed = 7`, not 2, and keeps 0 observations, not 5:
its entry check requires `timestamp` and `url` fields that the persisted
schema does not carry. -/
theorem validate_database_miscounts_persisted_schema :
    statCorrupted (validate_database "T" dbFiveTwo) = some (.num 7) ∧
    statTotalEntries (validate_database "T" dbFiveTwo) = some (.num 0) ∧
    (validate_database "T" dbFiveTwo).2.2.map historyOf = some [] := by
  refine ⟨rfl, rfl, rfl⟩

/-- Lookup of the `history` field in a two-field document object. -/
theorem lookup_db_history (h m : JVal) :
    (JVal.obj [("history", h), ("metadata", m)]).lookup "history" = some h :=
  rfl

/-- Lookup of the `metadata` field in a two-field document object. -/
theorem lookup_db_metadata (h m : JVal) :
    (JVal.obj [("history", h), ("metadata", m)]).lookup "metadata" = some m :=
  rfl

/-- List-level lookup of the `metadata` field in a document object. -/
theorem lookup_fields_metadata (h m : JVal) :
    List.lookup "metadata" [("history", h), ("metadata", m)] = some m :=
  rfl

/-- List-level lookup of `corrupted_entries_removed` in a validation-stats
object. -/
theorem lookup_stats_corrupted (a b c : JVal) :
    List.lookup "corrupted_entries_removed"
        [("total_cars", a), ("total_entries", b),
         ("corrupted_entries_removed", c)] = some c :=
  rfl

/-- List-level lookup of `total_entries` in a validation-stats object. -/
theorem lookup_stats_total (a b c : JVal) :
    List.lookup "total_entries"
        [("total_cars", a), ("total_entries", b),
         ("corrupted_entries_removed", c)] = some b :=
  rfl

/-- C2 amended: with "well-formed" read against the validator's actual entry
schema (string `timestamp`, non-negative numeric `price`, string `url`
starting with "http"), a database whose history holds 5 well-formed and 2
malformed observations is corrected to exactly the well-formed ones — each
car history filtered to its valid entries, emptied cars dropped — with
`corrupted_entries_removed = 2` and `total_entries = 5` reported, and the
result marked invalid. -/
theorem validate_database_keeps_exactly_valid_entries
    (now : String) (mfs hist : List (String × JVal))
    (hall : ∀ p ∈ hist, ∃ es, p.2 = JVal.arr es)
    (hv : countValidObs hist = 5) (hi : countInvalidObs hist = 2) :
    (validate_database now
        (.obj [("history", .obj hist), ("metadata", .obj mfs)])).2.2.map
        historyOf = some (specCorrectedHistory hist) ∧
    statCorrupted (validate_database now
        (.obj [("history", .obj hist), ("metadata", .obj mfs)])) =
      some (.num 2) ∧
    statTotalEntries (validate_database now
        (.obj [("history", .obj hist), ("metadata", .obj mfs)])) =
      some (.num 5) ∧
    (validate_database now
        (.obj [("history", .obj hist), ("metadata", .obj mfs)])).1 = false := by
  have hval : validate_database now
      (.obj [("history", .obj hist), ("metadata", .obj mfs)]) =
      (false, "Removed 2 corrupted entries",
       some (.obj
         [("history", .obj (specCorrectedHistory hist)),
          ("metadata", .obj (objSet
            (objSet mfs "last_validated" (.str now)) "validation_stats"
            (.obj [("total_cars", .num (specCorrectedHistory hist).length),
                   ("total_entries", .num 5),
                   ("corrupted_entries_removed", .num 2)])))])) := by
    simp only [validate_database, lookup_db_history, lookup_db_metadata,
      Option.getD_some, sanitize_history_spec hist hall, hv, hi]
    rfl
  rw [hval]
  refine ⟨rfl, ?_, ?_, rfl⟩
  · simp only [statCorrupted, validationStats, JVal.lookup,
      lookup_fields_metadata, lookup_objSet, lookup_stats_corrupted]
  · simp only [statTotalEntries, validationStats, JVal.lookup,
      lookup_fields_metadata, lookup_objSet, lookup_stats_total]

/-- C7 counterexample: a dictionary input whose `history` field is a list
makes `validate_database` hard-fail (`is_valid = false`,
`corrected = none`), refuting that non-dictionary input is the only hard
failure. -/
theorem validate_database_hard_fails_on_dict_input :
    validate_database "T" (.obj [("history", .arr [])]) =
      (false, "History field is not a dictionary", none) ∧
    (JVal.obj [("history", .arr [])]).isObj = true := by
  refine ⟨rfl, rfl⟩

/-- C7 amended: `validate_database` is a total function (never throws), and
it hard-fails — returns a `none` corrected copy — exactly when the input is
not a dictionary, or its `history` value is present and not a dictionary, or
its `metadata` value is present and not a dictionary (the latter via the
`AttributeError` swallowed by the outer handler); in every hard-failure case
`is_valid` is `false`, and on every other dictionary input the corrected
copy is non-null. -/
theorem validate_database_hard_failure_iff (now : String) (db : JVal) :
    ((validate_database now db).2.2 = none ↔
      (db.isObj = false ∨
       ((db.lookup "history").getD (.obj [])).isObj = false ∨
       ((db.lookup "metadata").getD (.obj [])).isObj = false)) ∧
    ((validate_database now db).1 &&
      (validate_database now db).2.2.isNone) = false := by
  cases db with
  | obj fs =>
    rcases hh : (JVal.lookup (.obj fs) "history").getD (.obj []) with
      _ | b | q | s | xs | hfs
    all_goals
      rcases hm : (JVal.lookup (.obj fs) "metadata").getD (.obj []) with
        _ | b2 | q2 | s2 | xs2 | mfs
    all_goals
      simp [validate_database, hh, hm, JVal.isObj]
  | null => simp [validate_database, JVal.isObj, JVal.lookup]
  | bool b => simp [validate_database, JVal.isObj, JVal.lookup]
  | num q => simp [validate_database, JVal.isObj, JVal.lookup]
  | str s => simp [validate_database, JVal.isObj, JVal.lookup]
  | arr xs => simp [validate_database, JVal.isObj, JVal.lookup]

/-- C4: the duplicate classifier is a pure function of the record and the
current database: an absent id is `new`; a present id with a price is
`changed` iff the absolute difference to the stored `last_price` reaches
`PRICE_CHANGE_THRESHOLD = 1` and `unchanged` below it; a present id without
a usable price is `unchanged`.  With `last_price = 10000`, a rescanned price
of 10000.5 is `unchanged` while 10001 and 9999 are `changed`. -/
theorem classify_car_spec (db : DupDb) (car : Car) :
    (db.lookup car.unique_id = none → classify_car db car = .new) ∧
    (∀ rec, db.lookup car.unique_id = some rec →
      (∀ p, car.price_numeric = some p →
        ((classify_car db car = .changed ↔
            PRICE_CHANGE_THRESHOLD ≤ qabs (p - rec.last_price)) ∧
         (classify_car db car = .unchanged ↔
            qabs (p - rec.last_price) < PRICE_CHANGE_THRESHOLD))) ∧
      (car.price_numeric = none → classify_car db car = .unchanged)) ∧
    (∀ rec, db.lookup car.unique_id = some rec → rec.last_price = 10000 →
      ((car.price_numeric = some (10000 + 1/2) →
          classify_car db car = .unchanged) ∧
       (car.price_numeric = some 10001 → classify_car db car = .changed) ∧
       (car.price_numeric = some 9999 → classify_car db car = .changed))) := by
  refine ⟨?_, ?_, ?_⟩
  · intro h
    simp [classify_car, h]
  · intro rec hrec
    refine ⟨?_, ?_⟩
    · intro p hp
      constructor
      · constructor
        · intro hc
          by_contra hnot
          simp [classify_car, hrec, hp, hnot] at hc
        · intro hge
          simp [classify_car, hrec, hp, hge]
      · constructor
        · intro hc
          by_contra hnot
          rw [not_lt] at hnot
          simp [classify_car, hrec, hp, hnot] at hc
        · intro hlt
          simp [classify_car, hrec, hp, not_le.mpr hlt]
    · intro hp
      simp [classify_car, hrec, hp]
  · intro rec hrec hlast
    refine ⟨?_, ?_, ?_⟩
    all_goals
      intro hp
      simp [classify_car, hrec, hp, hlast];
        norm_num [qabs, PRICE_CHANGE_THRESHOLD]

/-- Witness for `classify_car_spec`: instantiates it on the spec's concrete
scenario — a database holding id `B` at `last_price = 10000` — and on an
absent id and a missing price. -/
theorem classify_car_spec_witness :
    classify_car [] demoCar = .new ∧
    classify_car [("B", recTenK)] (rescanB none) = .unchanged ∧
    classify_car [("B", recTenK)] (rescanB (some (10000 + 1/2))) = .unchanged ∧
    classify_car [("B", recTenK)] (rescanB (some 10001)) = .changed ∧
    classify_car [("B", recTenK)] (rescanB (some 9999)) = .changed :=
  ⟨(classify_car_spec [] demoCar).1 rfl,
   ((classify_car_spec [("B", recTenK)] (rescanB none)).2.1 recTenK rfl).2 rfl,
   ((classify_car_spec [("B", recTenK)]
      (rescanB (some (10000 + 1/2)))).2.2 recTenK rfl rfl).1 rfl,
   ((classify_car_spec [("B", recTenK)]
      (rescanB (some 10001))).2.2 recTenK rfl rfl).2.1 rfl,
   ((classify_car_spec [("B", recTenK)]
      (rescanB (some 9999))).2.2 recTenK rfl rfl).2.2 rfl⟩

/-- The function `filter_duplicates` keeps exactly the cars not classified unchanged. -/
theorem filter_duplicates_eq_filter (db : DupDb) (cars : List Car) :
    filter_duplicates db cars =
      cars.filter (fun c => classify_car db c ≠ .unchanged) := by
  induction cars with
  | nil => rfl
  | cons car rest ih =>
    rw [filter_duplicates]
    rcases h : classify_car db car with _ | _ | _ <;>
      simp [h, List.filter_cons, ih]

/-- C3 counterexample: in the Supabase pipeline a scraped record classified
`unchanged` is not passed to the save operation at all, so it is not
appended to the ledger — classification does affect which observations get
persisted. -/
theorem supabase_pipeline_drops_unchanged_from_save :
    unchangedB ∈ [unchangedB] ∧
    classify_car dbB100 unchangedB = .unchanged ∧
    (run_supabase_pipeline dbB100 [unchangedB]).2 = [] := by
  have hc : classify_car dbB100 unchangedB = .unchanged := by
    simp [classify_car, dbB100, unchangedB, List.lookup];
      norm_num [qabs, PRICE_CHANGE_THRESHOLD]
  refine ⟨by simp, hc, ?_⟩
  simp [run_supabase_pipeline, filter_duplicates, hc]

/-- C3 amended: classification is independent of persistence only in the
GitHub-backend headless pipeline, where the full scraped batch is passed to
the save operation and only the new/changed cars are reported; in the
Supabase pipeline the save operation receives exactly the new/changed cars,
so unchanged records are not persisted there.  In both pipelines the
reported set is exactly the cars not classified unchanged, in scrape
order. -/
theorem pipelines_save_and_report (db : DupDb) (scraped : List Car) :
    (run_headless_pipeline db scraped).2 = scraped ∧
    (run_headless_pipeline db scraped).1 =
      scraped.filter (fun c => classify_car db c ≠ .unchanged) ∧
    (run_supabase_pipeline db scraped).1 =
      (run_supabase_pipeline db scraped).2 ∧
    (run_supabase_pipeline db scraped).2 =
      scraped.filter (fun c => classify_car db c ≠ .unchanged) ∧
    (∀ car ∈ scraped, car ∈ (run_headless_pipeline db scraped).2) ∧
    (∀ car ∈ (run_supabase_pipeline db scraped).2,
      classify_car db car ≠ .unchanged) := by
  refine ⟨rfl, filter_duplicates_eq_filter db scraped, rfl,
    filter_duplicates_eq_filter db scraped, fun car h => h, ?_⟩
  intro car hin
  have : car ∈ filter_duplicates db scraped := hin
  rw [filter_duplicates_eq_filter] at this
  rw [List.mem_filter] at this
  exact of_decide_eq_true this.2

/-- Witness for `pipelines_save_and_report`: on the database holding `B` at
price 100 and the batch `[unchangedB]`, the headless pipeline passes the
batch to save while the Supabase pipeline passes the empty filtered list. -/
theorem pipelines_save_and_report_witness :
    (run_headless_pipeline dbB100 [unchangedB]).2 = [unchangedB] ∧
    unchangedB ∈ (run_headless_pipeline dbB100 [unchangedB]).2 :=
  ⟨(pipelines_save_and_report dbB100 [unchangedB]).1,
   (pipelines_save_and_report dbB100 [unchangedB]).2.2.2.2.1 unchangedB
     (by simp)⟩

/-- C5 counterexample: when all remote attempts fail and a valid backup
exists, the download succeeds with the backup's content, but the provenance
string is "GitHub download failed -> Local backup (<name>)" and does not
contain the substring `"local-backup"`. -/
theorem safe_download_provenance_lacks_hyphen_tag :
    (safe_download envBackupOnly).ok = true ∧
    (safe_download envBackupOnly).content = some backupDoc ∧
    (safe_download envBackupOnly).localOut = some backupDoc ∧
    strContains (safe_download envBackupOnly).provenance "local-backup" =
      false := by
  refine ⟨rfl, rfl, rfl, rfl⟩

/-- A list is a `isPrefixOf`-prefix of itself followed by anything. -/
theorem isPrefixOf_append_self (l t : List Char) :
    l.isPrefixOf (l ++ t) = true := by
  induction l with
  | nil => simp [List.isPrefixOf]
  | cons c cs ih => simp [List.isPrefixOf, ih]

/-- The helper `charsContains` finds a pattern that starts anywhere in the suffix. -/
theorem charsContains_append (pat hay2 : List Char)
    (h : pat.isPrefixOf hay2 = true) :
    ∀ hay1, charsContains pat (hay1 ++ hay2) = true := by
  intro hay1
  induction hay1 with
  | nil =>
    cases hay2 with
    | nil =>
      cases pat with
      | nil => rfl
      | cons p ps => exact absurd h (by simp [List.isPrefixOf])
    | cons c t => simp [charsContains, h]
  | cons c t ih => simp [charsContains, ih]

/-- C5 amended: when all `DOWNLOAD_RETRY_ATTEMPTS` remote download attempts
fail and the backup manager finds a valid (or correctable) backup, the
download fallback succeeds with that backup's content, restores it to the
working path, and the provenance string contains `"Local backup"` (the
source's capitalisation, not the claim's `"local-backup"`). -/
theorem safe_download_uses_latest_valid_backup
    (env : DlEnv) (name : String) (content : JVal)
    (hremote : ∀ i, i < DOWNLOAD_RETRY_ATTEMPTS → env.remote i = none)
    (hbackup : get_latest_valid_backup env.now env.backups =
      some (name, content))
    (hrestore : env.restoreOk = true) :
    safe_download env =
      { ok := true, content := some content,
        provenance := joinArrow
          ["GitHub download failed", "Local backup (" ++ name ++ ")"],
        localOut := some content } ∧
    strContains (safe_download env).provenance "Local backup" = true := by
  have h0 := hremote 0 (by norm_num [DOWNLOAD_RETRY_ATTEMPTS])
  have h1 := hremote 1 (by norm_num [DOWNLOAD_RETRY_ATTEMPTS])
  have h2 := hremote 2 (by norm_num [DOWNLOAD_RETRY_ATTEMPTS])
  have hatt : dlAttempts env DOWNLOAD_RETRY_ATTEMPTS 0 = none := by
    simp [DOWNLOAD_RETRY_ATTEMPTS, dlAttempts, h0, h1, h2]
  have hres : safe_download env =
      { ok := true, content := some content,
        provenance := joinArrow
          ["GitHub download failed", "Local backup (" ++ name ++ ")"],
        localOut := some content } := by
    simp [safe_download, hatt, hbackup, hrestore]
  refine ⟨hres, ?_⟩
  rw [hres]
  show charsContains ("Local backup" : String).data
      (joinArrow ["GitHub download failed",
        "Local backup (" ++ name ++ ")"]).data = true
  have hjoin : joinArrow ["GitHub download failed",
      "Local backup (" ++ name ++ ")"] =
      "GitHub download failed -> " ++ ("Local backup (" ++ name ++ ")") := by
    show ("GitHub download failed" ++ " -> ") ++
        ("Local backup (" ++ name ++ ")") =
      "GitHub download failed -> " ++ ("Local backup (" ++ name ++ ")")
    rfl
  rw [hjoin, String.data_append]
  apply charsContains_append
  have hsplit : ("Local backup (" ++ name ++ ")").data =
      ("Local backup" : String).data ++
        ((" (" : String).data ++ name.data ++ (")" : String).data) := by
    simp [String.data_append]
  rw [hsplit]
  exact isPrefixOf_append_self _ _

/-- Witness for `safe_download_uses_latest_valid_backup`: the concrete
environment with three failing attempts and one valid backup. -/
theorem safe_download_uses_latest_valid_backup_witness :
    (safe_download envBackupOnly).content = some backupDoc ∧
    strContains (safe_download envBackupOnly).provenance "Local backup" =
      true := by
  have h := safe_download_uses_latest_valid_backup envBackupOnly
    "price_history_backup_20240101_120000.json" backupDoc
    (fun i _ => rfl) rfl rfl
  exact ⟨by rw [h.1], h.2⟩

/-- The upload retry loop makes at most `fuel` further attempts. -/
theorem uploadAttempts_le (env : UpEnv) :
    ∀ fuel made, (uploadAttempts env fuel made).2 ≤ made + fuel := by
  intro fuel
  induction fuel with
  | zero => intro made; simp [uploadAttempts]
  | succ n ih =>
    intro made
    rw [uploadAttempts]
    split
    · show made + 1 ≤ made + (n + 1)
      omega
    · have := ih (made + 1); omega

/-- If every attempt fails, the retry loop exhausts its budget and fails. -/
theorem uploadAttempts_all_fail (env : UpEnv)
    (h : ∀ a, a < UPLOAD_RETRY_ATTEMPTS → env.upload a = false) :
    uploadAttempts env UPLOAD_RETRY_ATTEMPTS 0 =
      (false, UPLOAD_RETRY_ATTEMPTS) := by
  have h0 := h 0 (by norm_num [UPLOAD_RETRY_ATTEMPTS])
  have h1 := h 1 (by norm_num [UPLOAD_RETRY_ATTEMPTS])
  have h2 := h 2 (by norm_num [UPLOAD_RETRY_ATTEMPTS])
  have h3 := h 3 (by norm_num [UPLOAD_RETRY_ATTEMPTS])
  have h4 := h 4 (by norm_num [UPLOAD_RETRY_ATTEMPTS])
  simp [UPLOAD_RETRY_ATTEMPTS, uploadAttempts, h0, h1, h2, h3, h4]

/-- C6: `atomic_upload` attempts the remote upload at most
`UPLOAD_RETRY_ATTEMPTS = 5` times; when every attempt fails it returns
`false` (it is a total function — exhaustion never raises); and when the
pre-upload backup creation fails, or the local temp-write-and-reverify step
fails, it returns `false` without having attempted any remote upload. -/
theorem atomic_upload_bounded_and_fail_closed :
    (∀ env content now,
      (atomic_upload env content now).2 ≤ UPLOAD_RETRY_ATTEMPTS) ∧
    (∀ env content now,
      (∀ a, a < UPLOAD_RETRY_ATTEMPTS → env.upload a = false) →
      (atomic_upload env content now).1 = false) ∧
    (∀ env content now, env.backupOk = false →
      atomic_upload env content now = (false, 0)) ∧
    (∀ env content now, env.writeOk = false →
      atomic_upload env content now = (false, 0)) := by
  have hcases : ∀ (env : UpEnv) (content : JVal) (now : String),
      atomic_upload env content now = (false, 0) ∨
      atomic_upload env content now =
        uploadAttempts env UPLOAD_RETRY_ATTEMPTS 0 := by
    intro env content now
    rw [atomic_upload]
    split
    · exact Or.inl rfl
    · split
      · exact Or.inl rfl
      · split
        · exact Or.inl rfl
        · split
          · exact Or.inl rfl
          · exact Or.inr rfl
  refine ⟨?_, ?_, ?_, ?_⟩
  · intro env content now
    rcases hcases env content now with h | h <;> rw [h]
    · simp [UPLOAD_RETRY_ATTEMPTS]
    · have := uploadAttempts_le env UPLOAD_RETRY_ATTEMPTS 0
      omega
  · intro env content now h
    rcases hcases env content now with he | he <;> rw [he]
    rw [uploadAttempts_all_fail env h]
  · intro env content now h
    rw [atomic_upload]
    simp [h]
  · intro env content now h
    rw [atomic_upload]
    split
    · rfl
    · split
      · rfl
      · simp [h]

/-- Witness for `atomic_upload_bounded_and_fail_closed`, instantiating each
conjunct on a concrete environment and the empty-document content. -/
theorem atomic_upload_witness :
    (atomic_upload ⟨true, true, fun _ => false⟩ (.obj []) "T").1 = false ∧
    atomic_upload ⟨false, true, fun _ => true⟩ (.obj []) "T" = (false, 0) ∧
    atomic_upload ⟨true, false, fun _ => true⟩ (.obj []) "T" = (false, 0) ∧
    (atomic_upload ⟨true, true, fun _ => true⟩ (.obj []) "T").2 ≤
      UPLOAD_RETRY_ATTEMPTS :=
  ⟨atomic_upload_bounded_and_fail_closed.2.1 _ _ _ (fun _ _ => rfl),
   atomic_upload_bounded_and_fail_closed.2.2.1 _ _ _ rfl,
   atomic_upload_bounded_and_fail_closed.2.2.2 _ _ _ rfl,
   atomic_upload_bounded_and_fail_closed.1 _ _ _⟩

/-- C8: lock acquisition is not mutually exclusive across session ids.  The
lock file name embeds the session id, so two overlapping runs with distinct
session ids lock distinct files: while a run holding the `"alpha"` lock is
active, an acquire for session `"beta"` succeeds immediately instead of
waiting or timing out; only a second acquire for the same session id is
blocked. -/
theorem lock_not_exclusive_across_session_ids :
    lockName "alpha" ≠ lockName "beta" ∧
    acquire_database_lock [lockName "alpha"] "beta" =
      some (lockName "beta") ∧
    acquire_database_lock [lockName "alpha"] "alpha" = none := by
  refine ⟨by decide, by rfl, by rfl⟩

/-- C9: `SupabaseSync.download_database` returns `True` for every input —
also when the remote fetch raises — and in the error branch it writes the
empty database (empty history) to the local path when one is given, so the
return value never distinguishes a failed remote download from a successful
one. -/
theorem supabase_download_always_true
    (fetched : Option (List (SCar × List SHist))) (hasLocalPath : Bool)
    (now : String) :
    (supabase_download_database fetched hasLocalPath now).1 = true ∧
    (fetched = none → hasLocalPath = true →
      (supabase_download_database fetched hasLocalPath now).2 =
        some (supaEmptyDb now) ∧
      historyOf (supaEmptyDb now) = []) := by
  cases fetched with
  | some data => exact ⟨rfl, fun h => nomatch h⟩
  | none =>
    refine ⟨rfl, fun _ hl => ?_⟩
    subst hl
    exact ⟨rfl, rfl⟩

/-- Witness for `supabase_download_always_true`: the failing fetch with a
local path supplied. -/
theorem supabase_download_always_true_witness :
    (supabase_download_database none true "T").1 = true ∧
    (supabase_download_database none true "T").2 = some (supaEmptyDb "T") ∧
    historyOf (supaEmptyDb "T") = [] :=
  ⟨(supabase_download_always_true none true "T").1,
   ((supabase_download_always_true none true "T").2 rfl rfl).1,
   ((supabase_download_always_true none true "T").2 rfl rfl).2⟩

/-- Joining the `BATCH_SIZE` chunks gives back the original list. -/
theorem chunked_join (l : List Car) : (chunked l).flatten = l := by
  rw [chunked]
  split
  · rename_i h
    simp [h]
  · rename_i h
    rw [List.flatten_cons, chunked_join (l.drop BATCH_SIZE),
      List.take_append_drop]
termination_by l.length
decreasing_by
  simp only [List.length_drop]
  have hp : 0 < l.length := List.length_pos.mpr (by assumption)
  have hb : 0 < BATCH_SIZE := by norm_num [BATCH_SIZE]
  omega

/-- When every batch upsert succeeds the loop upserts every chunk in
order. -/
theorem runBatches_all_ok (env : SupaSaveEnv)
    (h : ∀ i, env.batchOk i = true) :
    ∀ bs idx, runBatches env bs idx = (true, bs.flatten) := by
  intro bs
  induction bs with
  | nil => intro idx; simp [runBatches]
  | cons b rest ih =>
    intro idx
    simp [runBatches, h idx, ih (idx + 1), List.flatten_cons]

/-- C10: with the remote accepting every batch, `save_cars_data` passes to
the upsert exactly the first `MAX_NEW_CARS_PER_RUN = 1000` cars of a longer
batch — silently dropping the rest while still returning `True` — and every
car of a batch of at most 1000. -/
theorem save_cars_data_truncates (env : SupaSaveEnv) (cars : List Car)
    (h : ∀ i, env.batchOk i = true) :
    (MAX_NEW_CARS_PER_RUN < cars.length →
      save_cars_data env cars = (true, cars.take MAX_NEW_CARS_PER_RUN)) ∧
    (cars.length ≤ MAX_NEW_CARS_PER_RUN →
      save_cars_data env cars = (true, cars)) := by
  constructor
  · intro hlen
    have hne : cars ≠ [] := by
      intro e
      subst e
      simp [MAX_NEW_CARS_PER_RUN] at hlen
    simp [save_cars_data, hne, hlen, runBatches_all_ok env h, chunked_join]
  · intro hlen
    by_cases hne : cars = []
    · subst hne
      simp [save_cars_data]
    · have hnot : ¬ MAX_NEW_CARS_PER_RUN < cars.length := by omega
      simp [save_cars_data, hne, hnot, runBatches_all_ok env h, chunked_join]

/-- Witness for `save_cars_data_truncates`: a batch of 1001 identical cars
is truncated to 1000; a singleton batch is passed through whole. -/
theorem save_cars_data_truncates_witness :
    save_cars_data ⟨fun _ => true⟩ (List.replicate 1001 demoCar) =
      (true, (List.replicate 1001 demoCar).take MAX_NEW_CARS_PER_RUN) ∧
    save_cars_data ⟨fun _ => true⟩ [demoCar] = (true, [demoCar]) :=
  ⟨(save_cars_data_truncates _ _ (fun i => rfl)).1
      (by simp [MAX_NEW_CARS_PER_RUN]),
   (save_cars_data_truncates _ _ (fun i => rfl)).2
      (by simp [MAX_NEW_CARS_PER_RUN])⟩

/-- Witness for `validate_database_keeps_exactly_valid_entries`: the
concrete two-car history with 5 valid and 2 invalid observations. -/
theorem validate_database_keeps_exactly_valid_entries_witness :
    (validate_database "T"
        (.obj [("history", .obj histFiveTwo),
               ("metadata", .obj [])])).2.2.map historyOf =
      some (specCorrectedHistory histFiveTwo) ∧
    statCorrupted (validate_database "T"
        (.obj [("history", .obj histFiveTwo), ("metadata", .obj [])])) =
      some (.num 2) ∧
    statTotalEntries (validate_database "T"
        (.obj [("history", .obj histFiveTwo), ("metadata", .obj [])])) =
      some (.num 5) ∧
    (validate_database "T"
        (.obj [("history", .obj histFiveTwo),
               ("metadata", .obj [])])).1 = false :=
  validate_database_keeps_exactly_valid_entries "T" [] histFiveTwo
    (fun p hp => by
      simp only [histFiveTwo, List.mem_cons, List.not_mem_nil, or_false]
        at hp
      rcases hp with h | h
      · exact ⟨_, congrArg Prod.snd h⟩
      · exact ⟨_, congrArg Prod.snd h⟩)
    rfl rfl

end OlxScraper

